import Mathlib

/-!
# Verification of `SIMBAD_utils.py` (SIMBAD client)

A shallow embedding of the SIMBAD query client: the coordinate/radius
parsing of `Client.doPositionQuery`, the script assembly of both public
operations, the HTTP dispatch wrapper `Client.__doQuery`, and the
response parsing shared by `doPositionQuery` and `doObjectQuery`.

The two regular expressions of the source,

* `ppat = ([0-9\.\ ]+)\s+([\-\+][0-9\.\ ]+)` and
* `rpat = ([0-9]+)\s+([0-9]+)\s*([0-9]+)?`,

are embedded as deterministic left-to-right searches.  For both patterns
the Python backtracking engine is deterministic at every choice point
except the length of `ppat`'s first group (its character class contains
the space character, which `\s+` also matches), so only that group is
given an explicit longest-first backtracking loop (`ppatTry`); the
remaining pieces are maximal-munch spans, which is what the engine's
greedy `+`/`*`/`?` resolve to here (shortening any other greedy piece
leaves a character of the same class at the boundary, which the next
pattern element always rejects).

Exceptions are modelled with `Except`; the Python `None` returned by
`__doQuery` on a non-success HTTP status is an `Option.none`, and the
`TypeError` that `re.search(':error:', None)` raises in Python 2 is the
`SimbadError.TypeError` constructor.  Writes to `sys.stderr` are
collected in a `List String` diagnostic channel.
-/

/-- Exceptions of the source module.  `IncorrectInputError` carries the
optional message of the `raise` site (`none` for a bare
`raise IncorrectInputError`).  `KeyError` models a failed
`self.qFormats[...]` lookup and `TypeError` the Python 2 error of
`re.search(pattern, None)`. -/
inductive SimbadError where
  | IncorrectInputError (msg : Option String)
  | NoQueryElementsError
  | KeyError (key : String)
  | TypeError (msg : String)
deriving DecidableEq, Repr

/-- The dynamically typed `self.result` field: the empty string set by
`__init__`, the raw response text, or the final identifier list. -/
inductive ResultVal where
  | str (s : String)
  | list (l : List String)
deriving DecidableEq, Repr

/-- Python 2 `\s` (no `re.UNICODE`): space, tab, newline, carriage
return, vertical tab, form feed. -/
def isPySpace (c : Char) : Bool :=
  c == ' ' || c == '\t' || c == '\n' || c == '\r' || c == '\x0b' || c == '\x0c'

/-- `needle` is a prefix of `hay` (character lists). -/
def leadsWith : List Char → List Char → Bool
  | [], _ => true
  | _ :: _, [] => false
  | a :: as, b :: bs => a == b && leadsWith as bs

/-- `needle` occurs contiguously somewhere in `hay`. -/
def occursIn (needle : List Char) : List Char → Bool
  | [] => leadsWith needle []
  | c :: t => leadsWith needle (c :: t) || occursIn needle t

/-- `re.search(needle, hay)` for a literal pattern `needle`: substring
containment. -/
def containsSub (needle hay : String) : Bool :=
  occursIn needle.toList hay.toList

/-- Split a character list at every character satisfying `p`, keeping
empty pieces (the splitting behaviour of Python's `str.split(sep)` for a
one-character separator, and the building block for `str.split()`). -/
def splitBy (p : Char → Bool) : List Char → List (List Char)
  | [] => [[]]
  | c :: t =>
    if p c then [] :: splitBy p t
    else
      match splitBy p t with
      | h :: r => (c :: h) :: r
      | [] => [[c]]

/-- Python's `s.split(sep)` for a one-character separator `sep`. -/
def strSplitOnChar (sep : Char) (s : String) : List String :=
  (splitBy (fun c => c == sep) s.toList).map String.mk

/-- Python's `str.split()` with no argument: split on runs of
whitespace, dropping empty pieces. -/
def pySplit (s : String) : List String :=
  ((splitBy isPySpace s.toList).map String.mk).filter (fun a => a != "")

/-- Python's `int(s)` on a decimal digit string. -/
def decimalValue (s : String) : Nat :=
  s.toList.foldl (fun n c => n * 10 + (c.toNat - 48)) 0

/-- `rpat = ([0-9]+)\s+([0-9]+)\s*([0-9]+)?` anchored at the start of
`l`: maximal digit run, at least one whitespace, maximal digit run,
optional whitespace, optional maximal digit run.  (Each greedy piece is
forced: shortening it puts a character of its own class where the next
piece expects a different class.) -/
def rpatMatchAt (l : List Char) : Option (String × String × Option String) :=
  let (g1, r1) := l.span Char.isDigit
  if g1.isEmpty then none else
  let (w1, r2) := r1.span isPySpace
  if w1.isEmpty then none else
  let (g2, r3) := r2.span Char.isDigit
  if g2.isEmpty then none else
  let (g3, _) := ((r3.span isPySpace).2).span Char.isDigit
  some (String.mk g1, String.mk g2, if g3.isEmpty then none else some (String.mk g3))

/-- `rpat.search`: leftmost match of `rpat`. -/
def rpatSearch : List Char → Option (String × String × Option String)
  | [] => none
  | c :: t =>
    match rpatMatchAt (c :: t) with
    | some m => some m
    | none => rpatSearch t

/-- The character class `[0-9\.\ ]` of `ppat`. -/
def isCooChar (c : Char) : Bool :=
  c.isDigit || c == '.' || c == ' '

/-- Backtracking over the length of `ppat`'s first group.  `m` is the
maximal `[0-9\.\ ]` run at the anchor and `rest` the remainder; group 1
is tried longest-first (`k` characters of `m`), after it `\s+` must
match at least one whitespace, then `[\-\+]`, then a non-empty maximal
`[0-9\.\ ]` run as the tail of group 2. -/
def ppatTry (m rest : List Char) : Nat → Option (String × String)
  | 0 => none
  | k + 1 =>
    let g1 := m.take (k + 1)
    let tail := m.drop (k + 1) ++ rest
    let (w1, r2) := tail.span isPySpace
    match r2 with
    | s :: r3 =>
      if w1.isEmpty then ppatTry m rest k
      else if s == '-' || s == '+' then
        let (g2b, _) := r3.span isCooChar
        if g2b.isEmpty then ppatTry m rest k
        else some (String.mk g1, String.mk (s :: g2b))
      else ppatTry m rest k
    | [] => ppatTry m rest k

/-- `ppat = ([0-9\.\ ]+)\s+([\-\+][0-9\.\ ]+)` anchored at the start of
`l`. -/
def ppatMatchAt (l : List Char) : Option (String × String) :=
  let (m, rest) := l.span isCooChar
  ppatTry m rest m.length

/-- `ppat.search`: leftmost match of `ppat`. -/
def ppatSearch : List Char → Option (String × String)
  | [] => none
  | c :: t =>
    match ppatMatchAt (c :: t) with
    | some m => some m
    | none => ppatSearch t

/-- `re.sub('[\'\"]','',pstring)`: drop single and double quotes. -/
def stripQuotes (s : String) : String :=
  String.mk (s.toList.filter (fun c => c != '\x27' && c != '"'))

/-- `radec,rad = pos.split(':')` under `try/except ValueError`: with
exactly one colon the two parts, otherwise (`ValueError` on unpacking)
`rad = ''` and `radec = pos`. -/
def splitColon (pos : String) : String × String :=
  match strSplitOnChar ':' pos with
  | [radec, rad] => (radec, rad)
  | _ => (pos, "")

/-- The position portion of a (quote-stripped) position string. -/
def posPart (pstring : String) : String :=
  (splitColon (stripQuotes pstring)).1

/-- The radius portion of a (quote-stripped) position string (empty when
there is not exactly one colon). -/
def radPart (pstring : String) : String :=
  (splitColon (stripQuotes pstring)).2

/-- Lines 126-134: rewrite `rad` from the `rpat` match.  Three groups
give `"{g1}h{g2}m{int(g3)}s"`; with the third group absent `int(None)`
raises `TypeError`, and the handler gives `"{g1}h{g2}m"` when
`int(g1) > 0` and `"{g2}m"` otherwise.  Without a match `rad` is kept. -/
def normalizeRadius (rad : String) : String :=
  match rpatSearch rad.toList with
  | some (g1, g2, some g3) => g1 ++ "h" ++ g2 ++ "m" ++ toString (decimalValue g3) ++ "s"
  | some (g1, g2, none) => if decimalValue g1 > 0 then g1 ++ "h" ++ g2 ++ "m" else g2 ++ "m"
  | none => rad

/-- Lines 143-147: `re.search('m',rad)` keeps `rad`, otherwise `"%sd"`
appends the degree qualifier. -/
def qualifyRadius (rad : String) : String :=
  if containsSub "m" rad then rad else rad ++ "d"

/-- The `IncorrectInputError` of the failed RA/DEC extraction (spec name:
`MalformedCoordinateError`). -/
def malformedCoordinateError : SimbadError :=
  SimbadError.IncorrectInputError (some "coordinate string could not be parsed")

/-- Lines 112-147 of `doPositionQuery` (the coordinate parser): strip
quotes, split off the radius at the colon, normalize the radius, and
extract RA/DEC with `ppat`; a failed extraction (`pmat = None`, so
`pmat.group(1)` raises and the bare `except` fires) raises
`IncorrectInputError("coordinate string could not be parsed")`.  The
radius component is `none` when `rad` is empty (then `self.radius` is
left untouched by the caller). -/
def parsePositionString (pstring : String) : Except SimbadError (String × String × Option String) :=
  let radec := posPart pstring
  let rad := normalizeRadius (radPart pstring)
  match ppatSearch radec.toList with
  | none => Except.error malformedCoordinateError
  | some (ra, dec) =>
    Except.ok (ra, dec, if rad != "" then some (qualifyRadius rad) else none)

/-- `self.qFormats`: both query kinds map to `%IDLIST(1)`. -/
def qFormats (q : String) : Option String :=
  if q == "posquery" then some "%IDLIST(1)"
  else if q == "objquery" then some "%IDLIST(1)"
  else none

/-- `Client.__setscriptheader`: append the four header lines; a missing
`qFormats` key would be a Python `KeyError`. -/
def setscriptheader (elements : List String) (qType : String) : Except SimbadError (List String) :=
  match qFormats qType with
  | none => Except.error (SimbadError.KeyError qType)
  | some fmt =>
    Except.ok (elements ++
      ["output console=off error=off script=off",
       "format obj \"" ++ fmt ++ "\"",
       "result oid",
       "echodata XXX"])

/-- The four header lines produced for either query kind. -/
def headerLines : List String :=
  ["output console=off error=off script=off",
   "format obj \"%IDLIST(1)\"",
   "result oid",
   "echodata XXX"]

/-- `self.frames`. -/
def frames : List String :=
  ["ICRS", "FK4", "FK5", "GAL", "SGAL", "ECL"]

/-- Lines 149-168: the `query coo` line with its optional radius, frame,
equinox and epoch clauses (note the source's missing space before
`epoch=`). -/
def buildCooQuery (ra dec radius frame equinox epoch : String) : String :=
  (if radius != "" then "query coo " ++ ra ++ " " ++ dec ++ " radius=" ++ radius
   else "query coo " ++ ra ++ " " ++ dec)
  ++ (if frame != "" && frames.contains frame then " frame " ++ frame else "")
  ++ (if equinox != "" then " equi=" ++ equinox else "")
  ++ (if epoch != "" then "epoch=" ++ epoch else "")

/-- The transport's view of one `requests.get` call: status code, body
text, and the resolved URL reported by the response object. -/
structure HttpResponse where
  status : Nat
  text : String
  url : String
deriving DecidableEq, Repr

/-- `Client.__doQuery`: on a status other than `requests.codes.ok`
(200) write the abort diagnostic to stderr and fall off the end of the
function (Python returns `None`); on success optionally write the query
URL and return the body text. -/
def doQuery (debug : Nat) (resp : HttpResponse) : Option String × List String :=
  if resp.status != 200 then
    (none, ["Error while querying SIMBAD. Aborting...\n"])
  else
    (some resp.text, if debug != 0 then ["Query URL: " ++ resp.url ++ "\n"] else [])

/-- The line filter shared by both response-parsing branches:
`filter(lambda a: len(a) > 0 and a != 'XXX', raw.split('\n'))`. -/
def filterLines (raw : String) : List String :=
  (strSplitOnChar '\n' raw).filter (fun a => a != "" && a != "XXX")

/-- Lines 179-185: when the raw text contains `:error:`, the error
message is the space-join of the filtered lines that do not contain
`:::`; otherwise `self.error` is left as it was. -/
def responseError (error0 raw : String) : String :=
  if containsSub ":error:" raw then
    String.intercalate " " ((filterLines raw).filter (fun a => !containsSub ":::" a))
  else error0

/-- Lines 188-191: when `self.error` is (still) empty, the result is the
second token of every filtered line that splits into exactly two
whitespace-separated tokens; otherwise `self.result` stays the raw
text. -/
def responseResult (error1 raw : String) : ResultVal :=
  if error1 == "" then
    ResultVal.list (((((filterLines raw).map pySplit).filter
      (fun b => b.length == 2)).map (fun c => c.getD 1 "")))
  else ResultVal.str raw

/-- The debug write of the error branch (lines 180-181). -/
def responseDebugDiag (debug : Nat) (raw : String) : List String :=
  if containsSub ":error:" raw && debug != 0 then
    ["Returned result:\n" ++ raw ++ "\n"]
  else []

/-- The response-parsing step shared verbatim by `doPositionQuery`
(lines 179-191) and `doObjectQuery` (lines 230-242): the new
`self.error`, the new `self.result`, and the stderr writes. -/
def parseResponse (debug : Nat) (error0 raw : String) : String × ResultVal × List String :=
  let e := responseError error0 raw
  (e, responseResult e raw, responseDebugDiag debug raw)

/-- The mutable fields of a `Client` instance that the two public
operations read or write (`self.duration` and the constant
configuration helpers are omitted: wall-clock time is outside the
embedding). -/
structure ClientState where
  debug : Nat
  baseURL : String
  pstring : String
  ostring : String
  radius : String
  ra : String
  dec : String
  equinox : String
  epoch : String
  frame : String
  error : String
  result : ResultVal
  script : String
  elements : List String
  qType : String
deriving DecidableEq, Repr

/-- `Client.__init__` (with `self.ostring` and `self.qType`, which
Python only creates later, modelled as initially empty). -/
def initClient (URL : Option String) (debug : Nat) : ClientState :=
  { debug := debug
    baseURL := URL.getD "http://simbad.harvard.edu"
    pstring := ""
    ostring := ""
    radius := ""
    ra := ""
    dec := ""
    equinox := ""
    epoch := ""
    frame := ""
    error := ""
    result := ResultVal.str ""
    script := ""
    elements := []
    qType := "" }

/-- `Client.doPositionQuery` against one transport response.  A raised
exception discards the state (the partial field writes Python leaves
behind on the instance are not observable through the model's return
value); the second component collects the stderr writes. -/
def doPositionQuery (st0 : ClientState) (resp : HttpResponse) :
    Except SimbadError ClientState × List String :=
  let st1 := { st0 with qType := "posquery", script := "", elements := [] }
  match setscriptheader st1.elements st1.qType with
  | Except.error e => (Except.error e, [])
  | Except.ok elems =>
    if elems.length == 0 then (Except.error SimbadError.NoQueryElementsError, []) else
    let parsed : Except SimbadError ClientState :=
      if st1.pstring != "" then
        match parsePositionString st1.pstring with
        | Except.error e => Except.error e
        | Except.ok (ra, dec, radOpt) =>
          Except.ok { st1 with ra := ra, dec := dec, radius := radOpt.getD st1.radius }
      else Except.ok st1
    match parsed with
    | Except.error e => (Except.error e, [])
    | Except.ok st2 =>
      if st2.ra != "" && st2.dec != "" then
        if st2.dec.toList.headD ' ' != '+' && st2.dec.toList.headD ' ' != '-' then
          (Except.error (SimbadError.IncorrectInputError
            (some "DEC must start with \x27+\x27 or \x27-\x27!")), [])
        else if st2.radius != "" &&
            !(['h', 'm', 's', 'd'].contains (st2.radius.toList.getLastD ' ')) then
          (Except.error (SimbadError.IncorrectInputError
            (some "radius is missing qualifier!")), [])
        else
          let elems2 := elems ++
            [buildCooQuery st2.ra st2.dec st2.radius st2.frame st2.equinox st2.epoch]
          let st3 := { st2 with elements := elems2, script := String.intercalate "\n" elems2 }
          match doQuery st3.debug resp with
          | (none, ds) => (Except.error (SimbadError.TypeError "expected string or buffer"), ds)
          | (some raw, ds) =>
            let pr := parseResponse st3.debug st3.error raw
            (Except.ok { st3 with error := pr.1, result := pr.2.1 }, ds ++ pr.2.2)
      else (Except.error (SimbadError.IncorrectInputError none), [])

/-- `Client.doObjectQuery` against one transport response. -/
def doObjectQuery (st0 : ClientState) (resp : HttpResponse) :
    Except SimbadError ClientState × List String :=
  let st1 := { st0 with qType := "objquery", script := "", elements := [] }
  match setscriptheader st1.elements st1.qType with
  | Except.error e => (Except.error e, [])
  | Except.ok elems =>
    if elems.length == 0 then (Except.error SimbadError.NoQueryElementsError, []) else
    let objects := if st1.ostring != "" then strSplitOnChar ',' st1.ostring else []
    if objects.length > 0 then
      let elems2 := elems ++ [String.intercalate "\n" objects]
      let st3 := { st1 with elements := elems2, script := String.intercalate "\n" elems2 }
      match doQuery st3.debug resp with
      | (none, ds) => (Except.error (SimbadError.TypeError "expected string or buffer"), ds)
      | (some raw, ds) =>
        let pr := parseResponse st3.debug st3.error raw
        (Except.ok { st3 with error := pr.1, result := pr.2.1 }, ds ++ pr.2.2)
    else (Except.error (SimbadError.IncorrectInputError none), [])

/-- The identifier extraction as the specification words it (sec. 4.4):
drop empty lines and literal `XXX` lines, split each remaining line on
whitespace, keep only the lines of exactly two tokens, and take the
second token of each, in order. -/
def specIdentifiers (raw : String) : List String :=
  ((((strSplitOnChar '\n' raw).filter (fun a => a != "" && a != "XXX")).map pySplit).filter
    (fun t => t.length == 2)).map (fun c => c.getD 1 "")

/-- The client state that `doPositionQuery` produces from a client with
`pstring = "1 +2"` and a stale `error = "stale"` on a status-200
response with empty body (the final state of a concrete run). -/
def c6FinalState : ClientState :=
  { debug := 0
    baseURL := "http://simbad.harvard.edu"
    pstring := "1 +2"
    ostring := ""
    radius := ""
    ra := "1"
    dec := "+2"
    equinox := ""
    epoch := ""
    frame := ""
    error := "stale"
    result := ResultVal.str ""
    script := "output console=off error=off script=off\nformat obj \"%IDLIST(1)\"\nresult oid\nechodata XXX\nquery coo 1 +2"
    elements := ["output console=off error=off script=off", "format obj \"%IDLIST(1)\"",
      "result oid", "echodata XXX", "query coo 1 +2"]
    qType := "posquery" }

/-- The client state that `doObjectQuery` produces from a fresh client
with `ostring = "M31,M101,TW Hydrae"` on a status-200 response with
empty body (the final state of a concrete run). -/
def c8FinalState : ClientState :=
  { debug := 0
    baseURL := "http://simbad.harvard.edu"
    pstring := ""
    ostring := "M31,M101,TW Hydrae"
    radius := ""
    ra := ""
    dec := ""
    equinox := ""
    epoch := ""
    frame := ""
    error := ""
    result := ResultVal.list []
    script := "output console=off error=off script=off\nformat obj \"%IDLIST(1)\"\nresult oid\nechodata XXX\nM31\nM101\nTW Hydrae"
    elements := ["output console=off error=off script=off", "format obj \"%IDLIST(1)\"",
      "result oid", "echodata XXX", "M31\nM101\nTW Hydrae"]
    qType := "objquery" }


theorem setscriptheader_posquery : setscriptheader [] "posquery" = Except.ok headerLines := rfl

theorem setscriptheader_objquery : setscriptheader [] "objquery" = Except.ok headerLines := rfl

theorem occursIn_append_self (l : List Char) (c : Char) : occursIn [c] (l ++ [c]) = true := by
  induction l with
  | nil => simp [occursIn, leadsWith]
  | cons a t ih => simp [occursIn, ih]

theorem containsSub_append_m (s : String) : containsSub "m" (s ++ "m") = true := by
  unfold containsSub
  have : (s ++ "m").toList = s.toList ++ ['m'] := by
    show (s ++ "m").data = s.data ++ ['m']
    simp [String.data_append]
  rw [this]
  exact occursIn_append_self s.toList 'm'

theorem append_m_ne_empty (s : String) : (s ++ "m" != "") = true := by
  simp only [bne_iff_ne, ne_eq]
  intro h
  have : (s ++ "m").data = ("" : String).data := by rw [h]
  simp [String.data_append] at this

/-- Claim C1, as stated, is false: the raw text `":::error:\na:::b c:::d"`
contains `:error:` (inside `:::error:`), yet every non-empty non-`XXX`
line contains `:::`, so the constructed error message joins to the empty
string, the success branch runs, and a non-empty identifier list
`["c:::d"]` is produced. -/
theorem c1_error_marker_counterexample :
    containsSub ":error:" ":::error:\na:::b c:::d" = true ∧
    parseResponse 0 "" ":::error:\na:::b c:::d" = ("", ResultVal.list ["c:::d"], []) :=
  ⟨rfl, rfl⟩

/-- Claim C1 (amended): starting from a clear error field, if the raw
text contains `:error:` and the constructed error message is non-empty,
the result stays the raw text (no identifier list is built); and if the
raw text does not contain `:error:`, the error message stays empty. -/
theorem c1_outcome_channels_amended (d : Nat) (raw : String) :
    (containsSub ":error:" raw = true → (parseResponse d "" raw).1 ≠ "" →
      (parseResponse d "" raw).2.1 = ResultVal.str raw) ∧
    (containsSub ":error:" raw = false → (parseResponse d "" raw).1 = "") := by
  constructor
  · intro _ hne
    have h1 : (parseResponse d "" raw).1 = responseError "" raw := rfl
    rw [h1] at hne
    have h2 : (parseResponse d "" raw).2.1 = responseResult (responseError "" raw) raw := rfl
    rw [h2]
    unfold responseResult
    rw [if_neg (by simpa using hne)]
  · intro h
    have h1 : (parseResponse d "" raw).1 = responseError "" raw := rfl
    rw [h1]
    unfold responseError
    rw [if_neg (by simp [h])]

/-- Witness for the amended claim C1 at the two concrete responses
`"::error:: bad syntax\n:::detail:::"` (error branch) and
`"obj1 2006070"` (no marker). -/
theorem c1_outcome_channels_witness :
    (parseResponse 0 "" "::error:: bad syntax\n:::detail:::").2.1
      = ResultVal.str "::error:: bad syntax\n:::detail:::" ∧
    (parseResponse 0 "" "obj1 2006070").1 = "" := by
  constructor
  · exact (c1_outcome_channels_amended 0 _).1 rfl (by decide)
  · exact (c1_outcome_channels_amended 0 _).2 rfl

/-- Claim C2: on a non-success HTTP status the dispatch writes the abort
diagnostic and returns `None`; the subsequent parsing step then raises
the Python 2 `TypeError` of `re.search(':error:', None)` instead of
handling an empty result.  (The claim's "does not raise" half fails on
the code; this theorem evaluates the operation at the failing input.) -/
theorem c2_dispatch_failure_raises_typeerror :
    doPositionQuery { initClient none 0 with pstring := "05 23 34.6 -69 45 22" }
        ⟨500, "", ""⟩
      = (Except.error (SimbadError.TypeError "expected string or buffer"),
         ["Error while querying SIMBAD. Aborting...\n"]) :=
  rfl

/-- Claim C3: whenever `ppat` finds no match in the position portion,
the coordinate parse fails with
`IncorrectInputError("coordinate string could not be parsed")` (the
spec's `MalformedCoordinateError`). -/
theorem c3_malformed_coordinate (p : String)
    (h : ppatSearch (posPart p).toList = none) :
    parsePositionString p = Except.error malformedCoordinateError := by
  simp only [parsePositionString, h]

/-- Witness for claim C3 at the unparsable input `"no coordinates here"`. -/
theorem c3_malformed_coordinate_witness :
    ppatSearch (posPart "no coordinates here").toList = none ∧
    parsePositionString "no coordinates here" = Except.error malformedCoordinateError :=
  ⟨rfl, c3_malformed_coordinate _ rfl⟩

/-- Claim C4, as stated, is false: for `"05 23 34.6 -69 45 22:0 6"` the
radius group `"0 6"` has a zero first group, so the hour component is
dropped (lines 131-134) and the radius is `"6m"`, not `"0h6m"`. -/
theorem c4_roundtrip_counterexample :
    ¬ (parsePositionString "05 23 34.6 -69 45 22:0 6"
        = Except.ok ("05 23 34.6", "-69 45 22", some "0h6m")) := by
  rw [show parsePositionString "05 23 34.6 -69 45 22:0 6"
      = Except.ok ("05 23 34.6", "-69 45 22", some "6m") from rfl]
  simp

/-- Claim C4 (amended): parsing `"05 23 34.6 -69 45 22:0 6"` yields RA
`"05 23 34.6"`, DEC `"-69 45 22"`, and radius `"6m"` (the zero
hour/degree component is dropped, per the zero-as-sentinel rule). -/
theorem c4_roundtrip_amended :
    parsePositionString "05 23 34.6 -69 45 22:0 6"
      = Except.ok ("05 23 34.6", "-69 45 22", some "6m") :=
  rfl

/-- Claim C7: for every raw response without an `:error:` marker (and a
clear incoming error field), the parse yields exactly the identifier
list described by the specification: drop empty and `XXX` lines, split
on whitespace, keep two-token lines, take each second token in order. -/
theorem c7_identifier_extraction (d : Nat) (raw : String)
    (h : containsSub ":error:" raw = false) :
    parseResponse d "" raw = ("", ResultVal.list (specIdentifiers raw), []) := by
  have he : responseError "" raw = "" := by
    unfold responseError
    rw [if_neg (by simp [h])]
  show (responseError "" raw, responseResult (responseError "" raw) raw,
      responseDebugDiag d raw)
    = ("", ResultVal.list (specIdentifiers raw), [])
  rw [he]
  unfold responseResult responseDebugDiag specIdentifiers filterLines
  simp [h]

/-- Witness for claim C7 at the scenario response `"XXX\nobj1 2006070\nXXX"`,
whose identifier list is `["2006070"]`. -/
theorem c7_identifier_extraction_witness :
    containsSub ":error:" "XXX\nobj1 2006070\nXXX" = false ∧
    parseResponse 0 "" "XXX\nobj1 2006070\nXXX"
      = ("", ResultVal.list ["2006070"], []) := by
  refine ⟨rfl, ?_⟩
  exact (c7_identifier_extraction 0 "XXX\nobj1 2006070\nXXX" rfl).trans rfl

/-- Claim C5: when the radius portion matches `rpat` with exactly two
groups and the first group's integer value is 0, the hour/degree
component is dropped and the normalized radius is the second group with
the `m` qualifier (and the later qualifier step keeps it unchanged,
since it already contains `m`). -/
theorem c5_zero_first_group_radius (p g1 g2 : String)
    (h : rpatSearch (radPart p).toList = some (g1, g2, none))
    (h0 : decimalValue g1 = 0) :
    normalizeRadius (radPart p) = g2 ++ "m" ∧
    qualifyRadius (normalizeRadius (radPart p)) = g2 ++ "m" ∧
    ∀ ra dec r, parsePositionString p = Except.ok (ra, dec, r) → r = some (g2 ++ "m") := by
  have hn : normalizeRadius (radPart p) = g2 ++ "m" := by
    unfold normalizeRadius
    rw [h]
    simp [h0]
  have hq : qualifyRadius (g2 ++ "m") = g2 ++ "m" := by
    unfold qualifyRadius
    rw [if_pos (containsSub_append_m g2)]
  refine ⟨hn, by rw [hn]; exact hq, ?_⟩
  intro ra dec r hp
  simp only [parsePositionString] at hp
  rw [hn] at hp
  cases hps : ppatSearch (posPart p).toList with
  | none =>
    rw [hps] at hp
    exact absurd hp (by simp)
  | some pr =>
    obtain ⟨ra0, dec0⟩ := pr
    rw [hps] at hp
    rw [if_pos (append_m_ne_empty g2)] at hp
    rw [hq] at hp
    simp only [Except.ok.injEq, Prod.mk.injEq] at hp
    exact hp.2.2.symm

/-- Witness for claim C5 at the notation `"05 23 34.6 -69 45 22:00 15"`
(radius groups `"00"` and `"15"`, first group value 0). -/
theorem c5_zero_first_group_radius_witness :
    rpatSearch (radPart "05 23 34.6 -69 45 22:00 15").toList = some ("00", "15", none) ∧
    decimalValue "00" = 0 ∧
    normalizeRadius (radPart "05 23 34.6 -69 45 22:00 15") = "15" ++ "m" :=
  ⟨rfl, rfl, (c5_zero_first_group_radius "05 23 34.6 -69 45 22:00 15" "00" "15" rfl rfl).1⟩

/-- Claim C10: a non-empty radius portion that `rpat` does not match is
kept verbatim, and because it contains no `m` the qualifier step appends
`d`; a successful parse of such a position string carries exactly that
`d`-qualified radius. -/
theorem c10_unmatched_radius_verbatim (p : String)
    (h1 : (radPart p != "") = true)
    (h2 : rpatSearch (radPart p).toList = none)
    (h3 : containsSub "m" (radPart p) = false) :
    qualifyRadius (normalizeRadius (radPart p)) = radPart p ++ "d" ∧
    ∀ ra dec r, parsePositionString p = Except.ok (ra, dec, r) → r = some (radPart p ++ "d") := by
  have hn : normalizeRadius (radPart p) = radPart p := by
    unfold normalizeRadius
    rw [h2]
  have hq : qualifyRadius (radPart p) = radPart p ++ "d" := by
    unfold qualifyRadius
    rw [if_neg (by simp [h3])]
  refine ⟨by rw [hn]; exact hq, ?_⟩
  intro ra dec r hp
  simp only [parsePositionString] at hp
  rw [hn] at hp
  cases hps : ppatSearch (posPart p).toList with
  | none =>
    rw [hps] at hp
    exact absurd hp (by simp)
  | some pr =>
    obtain ⟨ra0, dec0⟩ := pr
    rw [hps] at hp
    rw [if_pos h1] at hp
    rw [hq] at hp
    simp only [Except.ok.injEq, Prod.mk.injEq] at hp
    exact hp.2.2.symm

/-- Witness for claim C10 at the notation
`"05 23 34.6 -69 45 22:0.16667"`: the decimal radius `"0.16667"` has no
`rpat` match and normalizes to `"0.16667d"`. -/
theorem c10_unmatched_radius_witness :
    (radPart "05 23 34.6 -69 45 22:0.16667" != "") = true ∧
    rpatSearch (radPart "05 23 34.6 -69 45 22:0.16667").toList = none ∧
    containsSub "m" (radPart "05 23 34.6 -69 45 22:0.16667") = false ∧
    qualifyRadius (normalizeRadius (radPart "05 23 34.6 -69 45 22:0.16667")) = "0.16667d" :=
  ⟨rfl, rfl, rfl,
    ((c10_unmatched_radius_verbatim "05 23 34.6 -69 45 22:0.16667" rfl rfl rfl).1).trans rfl⟩

theorem doPositionQuery_unfolded (st : ClientState) (resp : HttpResponse) :
    doPositionQuery st resp =
      match
        (if st.pstring != "" then
          match parsePositionString st.pstring with
          | Except.error e => Except.error e
          | Except.ok (ra, dec, radOpt) =>
            Except.ok
              { st with radius := radOpt.getD st.radius, ra := ra, dec := dec,
                        script := "", elements := [], qType := "posquery" }
        else
          Except.ok { st with script := "", elements := [], qType := "posquery" }) with
      | Except.error e => (Except.error e, [])
      | Except.ok st2 =>
        if st2.ra != "" && st2.dec != "" then
          if st2.dec.toList.headD ' ' != '+' && st2.dec.toList.headD ' ' != '-' then
            (Except.error (SimbadError.IncorrectInputError
              (some "DEC must start with \x27+\x27 or \x27-\x27!")), [])
          else if st2.radius != "" &&
              !(['h', 'm', 's', 'd'].contains (st2.radius.toList.getLastD ' ')) then
            (Except.error (SimbadError.IncorrectInputError
              (some "radius is missing qualifier!")), [])
          else
            match doQuery st2.debug resp with
            | (none, ds) => (Except.error (SimbadError.TypeError "expected string or buffer"), ds)
            | (some raw, ds) =>
              (Except.ok
                  { st2 with
                    error := (parseResponse st2.debug st2.error raw).1,
                    result := (parseResponse st2.debug st2.error raw).2.1,
                    script := String.intercalate "\n" (headerLines ++
                      [buildCooQuery st2.ra st2.dec st2.radius st2.frame st2.equinox st2.epoch]),
                    elements := headerLines ++
                      [buildCooQuery st2.ra st2.dec st2.radius st2.frame st2.equinox st2.epoch] },
                ds ++ (parseResponse st2.debug st2.error raw).2.2)
        else (Except.error (SimbadError.IncorrectInputError none), []) :=
  rfl

theorem doObjectQuery_unfolded (st : ClientState) (resp : HttpResponse) :
    doObjectQuery st resp =
      (let objects := if st.ostring != "" then strSplitOnChar ',' st.ostring else []
      if objects.length > 0 then
        match doQuery st.debug resp with
        | (none, ds) => (Except.error (SimbadError.TypeError "expected string or buffer"), ds)
        | (some raw, ds) =>
          (Except.ok
              { st with
                error := (parseResponse st.debug st.error raw).1,
                result := (parseResponse st.debug st.error raw).2.1,
                script := String.intercalate "\n" (headerLines ++ [String.intercalate "\n" objects]),
                elements := headerLines ++ [String.intercalate "\n" objects],
                qType := "objquery" },
            ds ++ (parseResponse st.debug st.error raw).2.2)
      else (Except.error (SimbadError.IncorrectInputError none), [])) :=
  rfl

theorem parsePositionString_error_eq (p : String) (e : SimbadError)
    (h : parsePositionString p = Except.error e) : e = malformedCoordinateError := by
  simp only [parsePositionString] at h
  split at h
  · simp only [Except.error.injEq] at h
    exact h.symm
  · exact absurd h (by simp)

/-- Claim C6, as stated, is false: a stale `error` from a previous call
is not cleared, so after a position query whose response contains a
well-formed row and no `:error:` marker, the final error is still the
stale message and the success parsing is skipped (the result stays the
raw text instead of the identifier list `["2006070"]`). -/
theorem c6_reset_counterexample :
    ((doPositionQuery
        { initClient none 0 with pstring := "05 23 34.6 -69 45 22", error := "previous error" }
        ⟨200, "XXX\nobj1 2006070\nXXX", ""⟩).1.toOption.map (fun s => (s.error, s.result)))
      = some ("previous error", ResultVal.str "XXX\nobj1 2006070\nXXX") :=
  rfl

/-- Claim C6 (amended): each public operation restarts only `elements`,
`script` and `qType` (their prior values never influence the outcome);
the `result` field is overwritten from the dispatched response before
being read, but the `error` field is **not** cleared: the final error of
a successful run is `responseError` applied to the *prior* error, and
the final result is computed from that, so an old error persists across
calls. -/
theorem c6_reset_amended (st : ClientState) (resp : HttpResponse) :
    (∀ el sc qt, doPositionQuery { st with elements := el, script := sc, qType := qt } resp
        = doPositionQuery st resp) ∧
    (∀ el sc qt, doObjectQuery { st with elements := el, script := sc, qType := qt } resp
        = doObjectQuery st resp) ∧
    (∀ st', (doPositionQuery st resp).1 = Except.ok st' →
        st'.error = responseError st.error resp.text ∧
        st'.result = responseResult (responseError st.error resp.text) resp.text) := by
  refine ⟨fun el sc qt => rfl, fun el sc qt => rfl, ?_⟩
  intro st' hp
  rw [doPositionQuery_unfolded] at hp
  split at hp
  · exact absurd hp (by simp)
  · rename_i st2 heq
    have hmain : st2.error = st.error ∧ st2.debug = st.debug := by
      split at heq
      · split at heq
        · exact absurd heq (by simp)
        · rw [Except.ok.injEq] at heq
          subst heq
          exact ⟨rfl, rfl⟩
      · rw [Except.ok.injEq] at heq
        subst heq
        exact ⟨rfl, rfl⟩
    obtain ⟨he, _⟩ := hmain
    split at hp
    on_goal 2 => exact absurd hp (by simp)
    split at hp
    on_goal 1 => exact absurd hp (by simp)
    split at hp
    on_goal 1 => exact absurd hp (by simp)
    split at hp
    · exact absurd hp (by simp)
    · rename_i raw ds hq
      unfold doQuery at hq
      split at hq
      · exact absurd hq (by simp)
      · simp only [Prod.mk.injEq, Option.some.injEq] at hq
        obtain ⟨hraw, _⟩ := hq
        subst hraw
        simp only [Except.ok.injEq] at hp
        subst hp
        constructor
        · show (parseResponse st2.debug st2.error resp.text).1 = responseError st.error resp.text
          rw [he]
          rfl
        · show (parseResponse st2.debug st2.error resp.text).2.1
            = responseResult (responseError st.error resp.text) resp.text
          rw [he]
          rfl

/-- Witness for the amended claim C6: prior `elements`/`script`/`qType`
junk does not change a concrete run, and a concrete run from a client
with stale error `"stale"` ends with that same stale error (and the
result computed from it). -/
theorem c6_reset_witness :
    doPositionQuery
        { initClient none 0 with elements := ["stale element"], script := "stale script",
                                 qType := "stale" } ⟨200, "", ""⟩
      = doPositionQuery (initClient none 0) ⟨200, "", ""⟩ ∧
    c6FinalState.error = responseError "stale" "" ∧
    c6FinalState.result = responseResult (responseError "stale" "") "" := by
  refine ⟨(c6_reset_amended (initClient none 0) ⟨200, "", ""⟩).1 ["stale element"] "stale script"
    "stale", ?_, ?_⟩
  · exact ((c6_reset_amended { initClient none 0 with pstring := "1 +2", error := "stale" }
      ⟨200, "", ""⟩).2.2 c6FinalState rfl).1
  · exact ((c6_reset_amended { initClient none 0 with pstring := "1 +2", error := "stale" }
      ⟨200, "", ""⟩).2.2 c6FinalState rfl).2

/-- Claim C8: whenever an object query succeeds, the query element
appended after the four header lines is the newline-join of the
comma-split object names (so each name is its own script line, in input
order), and the script is the newline-join of the elements; an empty
object-name string raises a bare `IncorrectInputError` with no dispatch
(the outcome is the same for every transport response and nothing is
written to the diagnostic channel); concretely, `"M31,M101,TW Hydrae"`
produces the three query lines in order after the header. -/
theorem c8_object_query_script (st : ClientState) (resp : HttpResponse) :
    (∀ st' ds, doObjectQuery st resp = (Except.ok st', ds) →
        st'.elements = headerLines ++ [String.intercalate "\n" (strSplitOnChar ',' st.ostring)] ∧
        st'.script = String.intercalate "\n" st'.elements) ∧
    (st.ostring = "" →
        doObjectQuery st resp = (Except.error (SimbadError.IncorrectInputError none), [])) ∧
    ((doObjectQuery { initClient none 0 with ostring := "M31,M101,TW Hydrae" }
        ⟨200, "", ""⟩).1.toOption.map (fun s => strSplitOnChar '\n' s.script))
      = some (headerLines ++ ["M31", "M101", "TW Hydrae"]) := by
  refine ⟨?_, ?_, rfl⟩
  · intro st' ds hp
    rw [doObjectQuery_unfolded] at hp
    split at hp
    · by_cases hc : 0 < (strSplitOnChar ',' st.ostring).length
      · rw [if_pos hc] at hp
        split at hp
        · exact absurd hp (by simp)
        · rename_i raw ds2 hq
          simp only [Prod.mk.injEq, Except.ok.injEq] at hp
          obtain ⟨hst, _⟩ := hp
          subst hst
          exact ⟨rfl, rfl⟩
      · rw [if_neg hc] at hp
        exact absurd hp (by simp)
    · simp at hp
  · intro h
    rw [doObjectQuery_unfolded]
    simp [h]

/-- Witness for claim C8: the empty object string fails with a bare
`IncorrectInputError` and empty diagnostics, and the concrete
`"M31,M101,TW Hydrae"` run carries the joined names as the element after
the header. -/
theorem c8_object_query_script_witness :
    doObjectQuery { initClient none 0 with ostring := "" } ⟨200, "", ""⟩
      = (Except.error (SimbadError.IncorrectInputError none), []) ∧
    c8FinalState.elements = headerLines ++ ["M31\nM101\nTW Hydrae"] := by
  constructor
  · exact (c8_object_query_script { initClient none 0 with ostring := "" }
      ⟨200, "", ""⟩).2.1 rfl
  · exact ((c8_object_query_script { initClient none 0 with ostring := "M31,M101,TW Hydrae" }
      ⟨200, "", ""⟩).1 c8FinalState [] rfl).1.trans rfl

/-- Claim C9: the `NoQueryElementsError` guard is dead code in both
public operations: the header builder appends its four lines
unconditionally to the just-emptied element list, so no run of either
operation can fail with `NoQueryElementsError`. -/
theorem c9_no_query_elements_unreachable (st : ClientState) (resp : HttpResponse) :
    setscriptheader [] "posquery" = Except.ok headerLines ∧
    setscriptheader [] "objquery" = Except.ok headerLines ∧
    headerLines.length = 4 ∧
    (doPositionQuery st resp).1 ≠ Except.error SimbadError.NoQueryElementsError ∧
    (doObjectQuery st resp).1 ≠ Except.error SimbadError.NoQueryElementsError := by
  refine ⟨rfl, rfl, rfl, ?_, ?_⟩
  · intro h
    rw [doPositionQuery_unfolded] at h
    split at h
    · rename_i e heq
      simp only [] at h
      simp only [Except.error.injEq] at h
      subst h
      split at heq
      · split at heq
        · rename_i e2 hpp
          simp only [Except.error.injEq] at heq
          subst heq
          have := parsePositionString_error_eq _ _ hpp
          simp [malformedCoordinateError] at this
        · exact absurd heq (by simp)
      · exact absurd heq (by simp)
    · repeat' split at h
      all_goals simp at h
  · intro h
    rw [doObjectQuery_unfolded] at h
    repeat' split at h
    all_goals simp [apply_ite Prod.fst, ite_eq_iff] at h

/-- Witness for claim C9 at a concrete fresh client and a status-200
response: neither operation's outcome is `NoQueryElementsError`. -/
theorem c9_no_query_elements_witness :
    (doPositionQuery (initClient none 0) ⟨200, "", ""⟩).1
      ≠ Except.error SimbadError.NoQueryElementsError ∧
    (doObjectQuery (initClient none 0) ⟨200, "", ""⟩).1
      ≠ Except.error SimbadError.NoQueryElementsError :=
  ⟨(c9_no_query_elements_unreachable (initClient none 0) ⟨200, "", ""⟩).2.2.2.1,
   (c9_no_query_elements_unreachable (initClient none 0) ⟨200, "", ""⟩).2.2.2.2⟩
